import Mathlib

/-!
Verification of the ATC_Simulator aircraft-kinematics and radar-return core.

The aircraft kinematics (`Aircraft.py`, `AircraftType.py`) are embedded over `ℚ`
(the Python source computes with real-number arithmetic on rationals; no
rounding behaviour is claimed).  The radar model (`radar.py`) is embedded
generically over a linear ordered field with a floor, so that it can be
instantiated both at `ℚ` and at `ℝ` (the sweep speed and angular tolerance are
multiples of π).
-/

namespace ATCSim

/-- Python's `%` on numbers with a positive right operand:
`x % m = x - m * floor (x / m)` (result has the sign of `m`). -/
def pymod {α : Type*} [LinearOrderedField α] [FloorRing α] (x m : α) : α :=
  x - m * ⌊x / m⌋

/-- Source constant `Aircraft.tick_duration_minutes = 0.05 / 60` (`Aircraft.py`, `__init__`). -/
def tick_duration_minutes : ℚ := (5 / 100) / 60

/-- Model of `AircraftType` (`AircraftType.py`): a static performance profile.
The constructor performs no validation: it stores its arguments verbatim. -/
structure AircraftType where
  name : String
  base_accel : ℚ
  cruise_speed : ℚ
  max_speed : ℚ
  climb_rate : ℚ
  descent_rate : ℚ
  turn_rate : ℚ
  radar_cross_section : ℚ
  icon : String := "✈"
deriving DecidableEq

/-- Model of `AircraftType.get_acceleration(self, altitude, velocity)`:
`base_accel * thrust_factor * altitude_factor * drag_factor` with
`thrust_factor = max(0.2, 1 - velocity/cruise_speed)`,
`altitude_factor = 1.0 if altitude < 10000 else 0.8 if altitude < 20000 else 0.6`,
`drag_factor = 1 / (1 + (velocity/cruise_speed)**2)`. -/
def AircraftType.get_acceleration (t : AircraftType) (altitude velocity : ℚ) : ℚ :=
  let thrust_factor : ℚ := max (2 / 10) (1 - velocity / t.cruise_speed)
  let altitude_factor : ℚ :=
    if altitude < 10000 then 1 else if altitude < 20000 then 8 / 10 else 6 / 10
  let drag_factor : ℚ := 1 / (1 + (velocity / t.cruise_speed) ^ 2)
  t.base_accel * thrust_factor * altitude_factor * drag_factor

/-- Model of `AircraftType.get_deceleration`: `min(accel * 1.5, 5.0)`. -/
def AircraftType.get_deceleration (t : AircraftType) (altitude velocity : ℚ) : ℚ :=
  min (t.get_acceleration altitude velocity * (15 / 10)) 5

/-- Model of `Aircraft` (`Aircraft.py`): mutable kinematic state of one contact.
The `ads_b` dict is flattened to its two keys `lat` and `lon`. -/
structure Aircraft where
  aircraft_type : AircraftType
  bearing_deg : ℚ
  velocity : ℚ
  id : String
  mode_a : String
  mode_c : ℚ
  mode_s : String
  ads_b_lat : ℚ
  ads_b_lon : ℚ
  assigned_altitude : ℚ
  assigned_speed : ℚ
  assigned_bearing_deg : ℚ
deriving DecidableEq

/-- Model of `Aircraft.__init__` (`Aircraft.py` lines 7–22): the assigned targets start
at the initial altitude, the profile's cruise speed, and the initial bearing. -/
def Aircraft.init (aircraft_type : AircraftType) (bearing_deg velocity : ℚ)
    (aircraft_id mode_a : String) (mode_c : ℚ) (mode_s : String) (lat lon : ℚ) : Aircraft :=
  { aircraft_type := aircraft_type, bearing_deg := bearing_deg, velocity := velocity,
    id := aircraft_id, mode_a := mode_a, mode_c := mode_c, mode_s := mode_s,
    ads_b_lat := lat, ads_b_lon := lon,
    assigned_altitude := mode_c, assigned_speed := aircraft_type.cruise_speed,
    assigned_bearing_deg := bearing_deg }

/-- Model of `Aircraft.update_speed(self, target_speed=None)` (`Aircraft.py` lines 66–83).
`None` is `Option.none`; it defaults the target to the profile's cruise speed. -/
def Aircraft.update_speed (ac : Aircraft) (target_speed : Option ℚ) : Aircraft :=
  let type_profile := ac.aircraft_type
  let current_speed := ac.velocity
  let altitude := ac.mode_c
  let target := target_speed.getD type_profile.cruise_speed
  if current_speed < target then
    { ac with velocity := min (ac.velocity + type_profile.get_acceleration altitude current_speed) type_profile.max_speed }
  else if current_speed > target then
    { ac with velocity := max (ac.velocity - type_profile.get_deceleration altitude current_speed) 0 }
  else ac

/-- Python's `str.zfill(w)` for strings of decimal digits (no sign handling is
needed: the source only applies it to `str` of a nonnegative `int`). -/
def zfill (w : Nat) (s : String) : String :=
  String.mk (List.replicate (w - s.length) '0') ++ s

/-- Python's `int(s)` restricted to (nonempty) strings of decimal digits, the
shape of every squawk in the source; any other string raises `ValueError`,
modelled as `none`. -/
def pyInt (s : String) : Option Nat :=
  if s.data ≠ [] ∧ s.data.all (fun c => 48 ≤ c.toNat ∧ c.toNat ≤ 57) then
    some (s.data.foldl (fun acc c => 10 * acc + (c.toNat - 48)) 0)
  else none

/-- Model of `Aircraft.update_squawk(self, mode_a)` (`Aircraft.py` lines 85–87):
`self.mode_a = str(int(self.mode_a) + 1).zfill(4)`.  The parameter is unused by
the body. -/
def Aircraft.update_squawk (ac : Aircraft) (mode_a : String) : Option Aircraft :=
  match pyInt ac.mode_a with
  | some n => some { ac with mode_a := zfill 4 (Nat.repr (n + 1)) }
  | none => none

/-- Model of `Aircraft.update_altitude(self, assigned_altitude)` (`Aircraft.py` lines 89–109). -/
def Aircraft.update_altitude (ac : Aircraft) (assigned_altitude : ℚ) : Aircraft :=
  let assigned_altitude := max 0 assigned_altitude
  let current_altitude := ac.mode_c
  let type_profile := ac.aircraft_type
  let delta := assigned_altitude - current_altitude
  if |delta| < 50 then
    { ac with mode_c := assigned_altitude }
  else if delta > 0 then
    let climb := type_profile.climb_rate * tick_duration_minutes
    { ac with mode_c := min (current_altitude + climb) assigned_altitude }
  else
    let descent := type_profile.descent_rate * tick_duration_minutes
    { ac with mode_c := max (current_altitude - descent) assigned_altitude }

/-- The signed shortest-path delta computed inside `Aircraft.update_bearing`:
`delta = (new - current + 360) % 360`, then `delta -= 360` if `delta > 180`. -/
def bearingDelta (current new_bearing_deg : ℚ) : ℚ :=
  let delta := pymod (new_bearing_deg - current + 360) 360
  if delta > 180 then delta - 360 else delta

/-- Model of `Aircraft.update_bearing(self, new_bearing_deg)` (`Aircraft.py` lines 111–121).
Note the snap branch stores the raw argument, with no `% 360`. -/
def Aircraft.update_bearing (ac : Aircraft) (new_bearing_deg : ℚ) : Aircraft :=
  let delta := bearingDelta ac.bearing_deg new_bearing_deg
  let turn_amount := ac.aircraft_type.turn_rate * tick_duration_minutes
  if |delta| ≤ turn_amount then
    { ac with bearing_deg := new_bearing_deg }
  else
    { ac with bearing_deg := pymod (ac.bearing_deg + (if delta > 0 then turn_amount else -turn_amount)) 360 }

/-- Model of `RadarSweep` (`radar.py` lines 8–20): the sweep state, `angle` plus the
fixed `sweep_speed` (in the source, `SWEEP_SPEED` from `constants.py`).
Generic over the field so that π can be supplied at `ℝ`. -/
structure RadarSweep (α : Type*) where
  angle : α
  sweep_speed : α
deriving DecidableEq

/-- Model of `RadarSweep.update`: `self.angle = (self.angle + self.sweep_speed) % (2 * np.pi)`.
The constant π of the source is a parameter. -/
def RadarSweep.update {α : Type*} [LinearOrderedField α] [FloorRing α]
    (pi : α) (s : RadarSweep α) : RadarSweep α :=
  { s with angle := pymod (s.angle + s.sweep_speed) (2 * pi) }

/-- Iteration of `RadarSweep.update`, `N` times. -/
def RadarSweep.iter {α : Type*} [LinearOrderedField α] [FloorRing α]
    (pi : α) (s : RadarSweep α) : Nat → RadarSweep α
  | 0 => s
  | n + 1 => RadarSweep.update pi (RadarSweep.iter pi s n)

/-- One entry of `RadarReturnManager.radar_returns`: the list
`[angle, distance, opacity]` appended by `add_return` (`radar.py` line 34). -/
structure RadarReturn (α : Type*) where
  angle : α
  distance : α
  opacity : α
deriving DecidableEq

/-- Model of `RadarReturnManager.add_return(self, angle, distance)` (`radar.py` lines 30–34):
append a new return with full opacity `1.0`. -/
def RadarReturnManager.add_return {α : Type*} [LinearOrderedField α]
    (radar_returns : List (RadarReturn α)) (angle distance : α) : List (RadarReturn α) :=
  radar_returns ++ [⟨angle, distance, 1⟩]

/-- One pass of `RadarReturnManager.update` (`radar.py` lines 36–42) with the
fade rate abstracted: subtract `fade` from every opacity, keep only positive
opacities.  In the source the fade rate is the literal `0.1 / 60`. -/
def decayStep {α : Type*} [LinearOrderedField α]
    (fade : α) (radar_returns : List (RadarReturn α)) : List (RadarReturn α) :=
  (radar_returns.map fun r => { r with opacity := r.opacity - fade }).filter
    fun r => 0 < r.opacity

/-- Model of `RadarReturnManager.update(self)`: `decayStep` at the source's fade rate
`0.1 / 60`. -/
def RadarReturnManager.update (radar_returns : List (RadarReturn ℚ)) : List (RadarReturn ℚ) :=
  decayStep ((1 / 10) / 60) radar_returns

/-- Iteration of `decayStep`, `k` times. -/
def decayIter {α : Type*} [LinearOrderedField α]
    (fade : α) : Nat → List (RadarReturn α) → List (RadarReturn α)
  | 0, m => m
  | k + 1, m => decayStep fade (decayIter fade k m)

/-- Model of `PrimaryRadarReturn.add_return` (`radar.py` lines 55–61): append a return
for the aircraft iff `abs(angle - self.sweep_angle) < ANGLE_TOLERANCE`.
The tolerance (in the source, `ANGLE_TOLERANCE = np.pi / 60`) is a parameter. -/
def PrimaryRadarReturn.add_return {α : Type*} [LinearOrderedField α]
    (tolerance : α) (radar_returns : List (RadarReturn α)) (angle distance sweep_angle : α) :
    List (RadarReturn α) :=
  if |angle - sweep_angle| < tolerance then
    RadarReturnManager.add_return radar_returns angle distance
  else radar_returns

/-- The spec's shortest-path angular distance `abs((a - b + π) mod 2π - π)`,
stated as written in the spec (to be compared against the source's plain
`abs(a - b)` test in `PrimaryRadarReturn.add_return`). -/
def spec_angular_distance {α : Type*} [LinearOrderedField α] [FloorRing α]
    (pi a b : α) : α :=
  |pymod (a - b + pi) (2 * pi) - pi|

section PymodLemmas

variable {α : Type*} [LinearOrderedField α] [FloorRing α]

theorem pymod_eq_fract (x m : α) (hm : m ≠ 0) : pymod x m = m * Int.fract (x / m) := by
  unfold pymod Int.fract
  field_simp

theorem pymod_nonneg (x m : α) (hm : 0 < m) : 0 ≤ pymod x m := by
  rw [pymod_eq_fract x m hm.ne']
  exact mul_nonneg hm.le (Int.fract_nonneg _)

theorem pymod_lt (x m : α) (hm : 0 < m) : pymod x m < m := by
  rw [pymod_eq_fract x m hm.ne']
  calc m * Int.fract (x / m) < m * 1 := by
        exact mul_lt_mul_of_pos_left (Int.fract_lt_one _) hm
    _ = m := mul_one m

theorem pymod_add_pymod (a b m : α) : pymod (pymod a m + b) m = pymod (a + b) m := by
  rcases eq_or_ne m 0 with hm | hm
  · simp [pymod, hm]
  · unfold pymod
    have h1 : (a - m * ⌊a / m⌋ + b) / m = (a + b) / m - ⌊a / m⌋ := by
      field_simp
      ring
    rw [h1, Int.floor_sub_int]
    push_cast
    ring

theorem pymod_of_mem (x m : α) (h0 : 0 ≤ x) (hlt : x < m) : pymod x m = x := by
  have hm : 0 < m := lt_of_le_of_lt h0 hlt
  have hfloor : ⌊x / m⌋ = 0 := by
    rw [Int.floor_eq_zero_iff]
    constructor
    · exact div_nonneg h0 hm.le
    · rw [div_lt_one hm]
      exact hlt
  simp [pymod, hfloor]

end PymodLemmas

/-- A generic test profile with round numbers, used for concrete instances. -/
def probeType : AircraftType :=
  { name := "probe", base_accel := 1, cruise_speed := 100, max_speed := 200,
    climb_rate := 600, descent_rate := 600, turn_rate := 30, radar_cross_section := 1 }

/-- The end-to-end scenario profile of the spec: cruise 110 kt, max 122 kt,
base acceleration 1.5. -/
def scenarioType : AircraftType :=
  { name := "scenario", base_accel := 3 / 2, cruise_speed := 110, max_speed := 122,
    climb_rate := 600, descent_rate := 600, turn_rate := 10, radar_cross_section := 1 }

/-- A concrete aircraft on the test profile. -/
def probeCraft (bearing velocity altitude : ℚ) : Aircraft :=
  Aircraft.init probeType bearing velocity "AC1" "1200" altitude "S1" 0 0

/-- The product of the four acceleration factors is positive whenever the
profile's base acceleration and cruise speed are. -/
theorem get_acceleration_pos (t : AircraftType) (altitude velocity : ℚ)
    (hb : 0 < t.base_accel) (hc : 0 < t.cruise_speed) :
    0 < t.get_acceleration altitude velocity := by
  unfold AircraftType.get_acceleration
  have h1 : (0 : ℚ) < max (2 / 10) (1 - velocity / t.cruise_speed) :=
    lt_of_lt_of_le (by norm_num) (le_max_left _ _)
  have h2 : (0 : ℚ) <
      (if altitude < 10000 then (1 : ℚ) else if altitude < 20000 then 8 / 10 else 6 / 10) := by
    split_ifs <;> norm_num
  have h3 : (0 : ℚ) < 1 / (1 + (velocity / t.cruise_speed) ^ 2) := by positivity
  exact mul_pos (mul_pos (mul_pos hb h1) h2) h3

/-- C8 counterexample: the `AircraftType` constructor (`AircraftType.__init__`)
performs no validation, so a profile with `cruise_speed = 0` and
`max_speed = 0` is constructed normally instead of being rejected. -/
theorem aircraft_type_no_validation_cex :
    (AircraftType.mk "zero" (3 / 2) 0 0 300 300 3 1 "✈").cruise_speed = 0 ∧
    (AircraftType.mk "zero" (3 / 2) 0 0 300 300 3 1 "✈").max_speed = 0 ∧
    ¬ 0 < (AircraftType.mk "zero" (3 / 2) 0 0 300 300 3 1 "✈").cruise_speed :=
  ⟨rfl, rfl, by norm_num⟩

/-- C8 (amended): profile construction stores every argument verbatim; no
field is checked, so non-positive cruise or max speeds are accepted and the
division by `cruise_speed` is only reached later inside `get_acceleration`. -/
theorem aircraft_type_stores_fields (name : String) (base cs ms cl de tr rcs : ℚ)
    (icon : String) :
    (AircraftType.mk name base cs ms cl de tr rcs icon).base_accel = base ∧
    (AircraftType.mk name base cs ms cl de tr rcs icon).cruise_speed = cs ∧
    (AircraftType.mk name base cs ms cl de tr rcs icon).max_speed = ms ∧
    (AircraftType.mk name base cs ms cl de tr rcs icon).climb_rate = cl ∧
    (AircraftType.mk name base cs ms cl de tr rcs icon).descent_rate = de ∧
    (AircraftType.mk name base cs ms cl de tr rcs icon).turn_rate = tr :=
  ⟨rfl, rfl, rfl, rfl, rfl, rfl⟩

/-- C9: on the scenario profile (cruise 110, max 122, base acceleration 1.5),
the acceleration at altitude 5000 and velocity 0 is exactly 1.5, and one
`update_speed` call with target 110 takes the velocity from 0 to exactly 1.5. -/
theorem scenario_first_tick :
    scenarioType.get_acceleration 5000 0 = 3 / 2 ∧
    ((Aircraft.init scenarioType 0 0 "AC9" "1200" 5000 "S9" 0 0).update_speed
        (some 110)).velocity = 3 / 2 := by
  constructor
  · simp [AircraftType.get_acceleration, scenarioType, max_def]
    norm_num
  · simp [Aircraft.update_speed, Aircraft.init, AircraftType.get_acceleration, scenarioType,
      max_def, min_def]
    norm_num

/-- C10: `update_squawk` ignores its argument; whenever the current squawk is
a decimal numeral, it is replaced by its decimal successor zero-padded to four
digits. -/
theorem update_squawk_increments (ac : Aircraft) (x : String) (n : ℕ)
    (h : pyInt ac.mode_a = some n) :
    ac.update_squawk x = some { ac with mode_a := zfill 4 (Nat.repr (n + 1)) } ∧
    ∀ y : String, ac.update_squawk x = ac.update_squawk y := by
  refine ⟨?_, fun y => rfl⟩
  unfold Aircraft.update_squawk
  rw [h]

/-- C10 witness: squawk "1200" becomes "1201", for an arbitrary ignored
argument. -/
theorem update_squawk_increments_witness :
    (probeCraft 0 0 0).update_squawk "7700"
      = some { probeCraft 0 0 0 with mode_a := "1201" } := by
  have h := update_squawk_increments (probeCraft 0 0 0) "7700" 1200 (by decide)
  rw [h.1, show zfill 4 (Nat.repr (1200 + 1)) = "1201" by decide]

/-- C1 (amended): with a positive base acceleration and cruise speed, a call
to `update_speed` on an aircraft with `0 ≤ velocity < target ≤ max_speed`
strictly increases the velocity and keeps it inside `[0, max_speed]`; a call
with `velocity = target` exactly is a no-op.  There is no epsilon band: the
update only stops changing the velocity at exact equality. -/
theorem update_speed_below_target (ac : Aircraft) (target : ℚ)
    (hb : 0 < ac.aircraft_type.base_accel) (hc : 0 < ac.aircraft_type.cruise_speed)
    (hv0 : 0 ≤ ac.velocity) :
    (ac.velocity < target → target ≤ ac.aircraft_type.max_speed →
      ac.velocity < (ac.update_speed (some target)).velocity ∧
      0 ≤ (ac.update_speed (some target)).velocity ∧
      (ac.update_speed (some target)).velocity ≤ ac.aircraft_type.max_speed) ∧
    (ac.velocity = target → ac.update_speed (some target) = ac) := by
  constructor
  · intro hlt hle
    have ha := get_acceleration_pos ac.aircraft_type ac.mode_c ac.velocity hb hc
    simp only [Aircraft.update_speed, Option.getD_some, if_pos hlt]
    refine ⟨lt_min (by linarith) (lt_of_lt_of_le hlt hle),
      le_min (by linarith) (by linarith), min_le_right _ _⟩
  · intro heq
    simp [Aircraft.update_speed, heq]

/-- C1 witness: velocity 50, target 100, max 200 on the test profile —
one call strictly increases the velocity and keeps it in range. -/
theorem update_speed_below_target_witness :
    (probeCraft 0 50 0).velocity < ((probeCraft 0 50 0).update_speed (some 100)).velocity ∧
    0 ≤ ((probeCraft 0 50 0).update_speed (some 100)).velocity ∧
    ((probeCraft 0 50 0).update_speed (some 100)).velocity
      ≤ (probeCraft 0 50 0).aircraft_type.max_speed :=
  (update_speed_below_target (probeCraft 0 50 0) 100
      (by norm_num [probeCraft, Aircraft.init, probeType])
      (by norm_num [probeCraft, Aircraft.init, probeType])
      (by norm_num [probeCraft, Aircraft.init, probeType])).1
    (by norm_num [probeCraft, Aircraft.init, probeType])
    (by norm_num [probeCraft, Aircraft.init, probeType])

/-- C1 counterexample: at velocity 99 with target 100 (within any epsilon of
one knot or more, and well inside the 5-knot "Cruise" band of
`speed_status`), a further `update_speed` call still changes the velocity —
the code has no stopping band short of exact equality. -/
theorem update_speed_no_epsilon_cex :
    |(probeCraft 0 99 0).velocity - 100| < 5 ∧
    ((probeCraft 0 99 0).update_speed (some 100)).velocity ≠ (probeCraft 0 99 0).velocity := by
  constructor
  · norm_num [probeCraft, Aircraft.init, probeType]
  · simp [Aircraft.update_speed, AircraftType.get_acceleration, probeCraft, Aircraft.init,
      probeType, max_def, min_def]
    norm_num

/-- The delta computed by `update_bearing` is the signed shortest-path
representative of `target - current` modulo 360, lying in `(-180, 180]`. -/
theorem bearingDelta_bounds (b t : ℚ) :
    -180 < bearingDelta b t ∧ bearingDelta b t ≤ 180 ∧
      ∃ k : ℤ, bearingDelta b t = t - b + 360 * k := by
  have h360 : (0 : ℚ) < 360 := by norm_num
  have h0 := pymod_nonneg (t - b + 360) 360 h360
  have h1 := pymod_lt (t - b + 360) 360 h360
  unfold bearingDelta
  unfold pymod at *
  dsimp only
  split_ifs with hgt
  · refine ⟨by linarith, by linarith, ⟨-⌊(t - b + 360) / 360⌋, by push_cast; ring⟩⟩
  · refine ⟨by linarith, by linarith, ⟨1 - ⌊(t - b + 360) / 360⌋, by push_cast; ring⟩⟩

/-- C3 counterexample: on a profile with turn rate 30°/s (turn amount 0.025°
per tick), updating the bearing of an aircraft at 0° toward target 720° snaps
the bearing to the raw value 720, which is outside `[0, 360)` — the snap
branch of `update_bearing` stores the target without `% 360`. -/
theorem update_bearing_range_cex :
    ((probeCraft 0 0 0).update_bearing 720).bearing_deg = 720 ∧
    ¬ ((probeCraft 0 0 0).update_bearing 720).bearing_deg < 360 := by
  have h : ((probeCraft 0 0 0).update_bearing 720).bearing_deg = 720 := by
    simp [Aircraft.update_bearing, bearingDelta, pymod, probeCraft, Aircraft.init, probeType,
      tick_duration_minutes]
    norm_num [Int.floor_eq_iff]
  exact ⟨h, by rw [h]; norm_num⟩

/-- C3 (amended): whenever the target bearing lies in `[0, 360)`, the bearing
after `update_bearing` lies in `[0, 360)`: the snap branch stores the (already
normalized) raw target, and the turning branch normalizes with `% 360`.  For a
target outside `[0, 360)` the snap branch can leave the bearing unnormalized. -/
theorem update_bearing_range (ac : Aircraft) (target : ℚ)
    (h0 : 0 ≤ target) (h1 : target < 360) :
    0 ≤ (ac.update_bearing target).bearing_deg ∧
      (ac.update_bearing target).bearing_deg < 360 := by
  unfold Aircraft.update_bearing
  dsimp only
  split_ifs
  · exact ⟨h0, h1⟩
  all_goals exact ⟨pymod_nonneg _ _ (by norm_num), pymod_lt _ _ (by norm_num)⟩

/-- C3 witness: an aircraft at bearing 17° given target 10° ends inside
`[0, 360)`. -/
theorem update_bearing_range_witness :
    0 ≤ ((probeCraft 17 0 0).update_bearing 10).bearing_deg ∧
      ((probeCraft 17 0 0).update_bearing 10).bearing_deg < 360 :=
  update_bearing_range (probeCraft 17 0 0) 10 (by norm_num) (by norm_num)

/-- C6 (amended): `update_bearing` turns through the smaller arc — the signed
delta is congruent to `target - bearing` modulo 360 and lies in `(-180, 180]`,
and in the turning case the bearing rotates by the turn amount in the sign of
that delta (normalized by `% 360`).  In the snap case the bearing is set to
the raw target (equal to target mod 360 only when the target is already in
`[0, 360)`). -/
theorem update_bearing_shortest_path (ac : Aircraft) (target : ℚ) :
    (-180 < bearingDelta ac.bearing_deg target ∧ bearingDelta ac.bearing_deg target ≤ 180 ∧
      ∃ k : ℤ, bearingDelta ac.bearing_deg target = target - ac.bearing_deg + 360 * k) ∧
    (|bearingDelta ac.bearing_deg target| ≤ ac.aircraft_type.turn_rate * tick_duration_minutes →
      (ac.update_bearing target).bearing_deg = target) ∧
    (¬ |bearingDelta ac.bearing_deg target| ≤ ac.aircraft_type.turn_rate * tick_duration_minutes →
      (ac.update_bearing target).bearing_deg =
        pymod (ac.bearing_deg +
          (if bearingDelta ac.bearing_deg target > 0
            then ac.aircraft_type.turn_rate * tick_duration_minutes
            else -(ac.aircraft_type.turn_rate * tick_duration_minutes))) 360) := by
  refine ⟨bearingDelta_bounds ac.bearing_deg target, ?_, ?_⟩
  · intro h
    unfold Aircraft.update_bearing
    rw [if_pos h]
  · intro h
    unfold Aircraft.update_bearing
    rw [if_neg h]

/-- C6 witness: from bearing 350° toward target 10° the delta is +20°, so the
aircraft turns positively through north: one tick moves it to 350.025°, and
the turning branch applies as stated. -/
theorem update_bearing_shortest_path_witness :
    bearingDelta (probeCraft 350 0 0).bearing_deg 10 = 20 ∧
    ((probeCraft 350 0 0).update_bearing 10).bearing_deg =
      pymod ((probeCraft 350 0 0).bearing_deg +
        (if bearingDelta (probeCraft 350 0 0).bearing_deg 10 > 0
          then (probeCraft 350 0 0).aircraft_type.turn_rate * tick_duration_minutes
          else -((probeCraft 350 0 0).aircraft_type.turn_rate * tick_duration_minutes))) 360 := by
  have hd : bearingDelta (probeCraft 350 0 0).bearing_deg 10 = 20 := by
    simp [bearingDelta, pymod, probeCraft, Aircraft.init, probeType]
    norm_num [Int.floor_eq_iff]
  refine ⟨hd, (update_bearing_shortest_path (probeCraft 350 0 0) 10).2.2 ?_⟩
  rw [hd]
  norm_num [probeCraft, Aircraft.init, probeType, tick_duration_minutes]

/-- C6 counterexample: an aircraft at bearing 10° given the (unnormalized)
target 370° has shortest delta 0, so the call snaps — but the stored bearing
is the raw 370, not `370 mod 360 = 10`. -/
theorem update_bearing_snap_cex :
    ((probeCraft 10 0 0).update_bearing 370).bearing_deg = 370 ∧
    pymod (370 : ℚ) 360 = 10 ∧ (370 : ℚ) ≠ 10 := by
  refine ⟨?_, ?_, by norm_num⟩
  · simp [Aircraft.update_bearing, bearingDelta, pymod, probeCraft, Aircraft.init, probeType,
      tick_duration_minutes]
    norm_num [Int.floor_eq_iff]
  · simp [pymod]
    norm_num [Int.floor_eq_iff]

/-- C5: `update_altitude` clamps the target to `max 0 target` first; within 50
feet it snaps exactly to the clamped target; otherwise it moves by the
per-tick climb or descent amount, clamped so it never overshoots the target,
and the altitude stays nonnegative whenever it was nonnegative before. -/
theorem update_altitude_props (ac : Aircraft) (target : ℚ)
    (hm : 0 ≤ ac.mode_c) (hcl : 0 ≤ ac.aircraft_type.climb_rate)
    (hde : 0 ≤ ac.aircraft_type.descent_rate) :
    0 ≤ (ac.update_altitude target).mode_c ∧
    (|max 0 target - ac.mode_c| < 50 → (ac.update_altitude target).mode_c = max 0 target) ∧
    (50 ≤ max 0 target - ac.mode_c →
      (ac.update_altitude target).mode_c
          = min (ac.mode_c + ac.aircraft_type.climb_rate * tick_duration_minutes)
              (max 0 target) ∧
      ac.mode_c ≤ (ac.update_altitude target).mode_c ∧
      (ac.update_altitude target).mode_c ≤ max 0 target) ∧
    (max 0 target - ac.mode_c ≤ -50 →
      (ac.update_altitude target).mode_c
          = max (ac.mode_c - ac.aircraft_type.descent_rate * tick_duration_minutes)
              (max 0 target) ∧
      max 0 target ≤ (ac.update_altitude target).mode_c ∧
      (ac.update_altitude target).mode_c ≤ ac.mode_c) := by
  have htd : (0 : ℚ) ≤ tick_duration_minutes := by norm_num [tick_duration_minutes]
  have hcl' : 0 ≤ ac.aircraft_type.climb_rate * tick_duration_minutes := mul_nonneg hcl htd
  have hde' : 0 ≤ ac.aircraft_type.descent_rate * tick_duration_minutes := mul_nonneg hde htd
  have h0t : (0 : ℚ) ≤ max 0 target := le_max_left _ _
  unfold Aircraft.update_altitude
  dsimp only
  split_ifs with h1 h2
  · rcases abs_lt.mp h1 with ⟨ha, hb⟩
    exact ⟨h0t, fun _ => rfl, fun hge => by exfalso; linarith,
      fun hle => by exfalso; linarith⟩
  · refine ⟨le_min (by linarith) h0t,
      fun h1' => absurd h1' h1,
      fun _ => ⟨rfl, le_min (by linarith) (by linarith), min_le_right _ _⟩,
      fun hle => by exfalso; linarith⟩
  · refine ⟨le_trans h0t (le_max_right _ _),
      fun h1' => absurd h1' h1,
      fun hge => by exfalso; linarith,
      fun hle => ⟨rfl, le_max_right _ _, max_le (by linarith) (by linarith)⟩⟩

/-- C5 witness: from altitude 1000 toward target 2000 at climb rate 600, one
call climbs by the per-tick amount without overshoot and stays nonnegative. -/
theorem update_altitude_props_witness :
    0 ≤ ((probeCraft 0 0 1000).update_altitude 2000).mode_c ∧
    ((probeCraft 0 0 1000).update_altitude 2000).mode_c
        = min ((probeCraft 0 0 1000).mode_c
            + (probeCraft 0 0 1000).aircraft_type.climb_rate * tick_duration_minutes)
          (max 0 2000) := by
  have h := update_altitude_props (probeCraft 0 0 1000) 2000
    (by norm_num [probeCraft, Aircraft.init, probeType])
    (by norm_num [probeCraft, Aircraft.init, probeType])
    (by norm_num [probeCraft, Aircraft.init, probeType])
  exact ⟨h.1, (h.2.2.1 (by norm_num [probeCraft, Aircraft.init, probeType])).1⟩

/-- A blip at full opacity survives `k` decay steps as long as `k · fade < 1`,
with opacity exactly `1 - k · fade`. -/
theorem decayIter_singleton (fade : ℚ) (hf : 0 < fade) (a d : ℚ) (k : ℕ)
    (hk : (k : ℚ) * fade < 1) :
    decayIter fade k [⟨a, d, 1⟩] = [⟨a, d, 1 - k * fade⟩] := by
  induction k with
  | zero => simp [decayIter]
  | succ n ih =>
    have hcast : ((n + 1 : ℕ) : ℚ) = (n : ℚ) + 1 := by push_cast; ring
    rw [hcast] at hk
    have hn : (n : ℚ) * fade < 1 := by nlinarith
    have hpos : 0 < 1 - ((n : ℚ) + 1) * fade := by linarith
    show decayStep fade (decayIter fade n [⟨a, d, 1⟩]) = _
    rw [ih hn]
    simp only [decayStep, List.map_cons, List.map_nil, List.filter_cons, List.filter_nil,
      decide_eq_true_eq]
    rw [if_pos (by linarith)]
    rw [hcast]
    congr 1
    dsimp only
    congr 1
    ring

/-- C4: a blip created at opacity 1.0 under fade rate `fade` per tick has
opacity exactly `1 - k·fade` (equal to `max 0 (1 - k·fade)`) after `k` decay
calls for every `k < ⌈1/fade⌉`, is removed after exactly `⌈1/fade⌉` decay
calls, and each decay call subtracts `fade` from every blip and keeps exactly
the blips whose new opacity is positive. -/
theorem blip_lifecycle (fade : ℚ) (hf : 0 < fade) (a d : ℚ) :
    (∀ k : ℕ, k < ⌈1 / fade⌉₊ →
      decayIter fade k [⟨a, d, 1⟩] = [⟨a, d, 1 - k * fade⟩] ∧
      (1 - (k : ℚ) * fade) = max 0 (1 - k * fade)) ∧
    decayIter fade ⌈1 / fade⌉₊ [⟨a, d, 1⟩] = [] ∧
    (∀ (m : List (RadarReturn ℚ)) (b : RadarReturn ℚ),
      b ∈ decayStep fade m ↔
        0 < b.opacity ∧ ∃ r ∈ m, b = ⟨r.angle, r.distance, r.opacity - fade⟩) := by
  refine ⟨?_, ?_, ?_⟩
  · intro k hk
    have hk' : (k : ℚ) < 1 / fade := Nat.lt_ceil.mp hk
    have hkf : (k : ℚ) * fade < 1 := (lt_div_iff hf).mp hk'
    exact ⟨decayIter_singleton fade hf a d k hkf, (max_eq_right (by linarith)).symm⟩
  · have hK : 0 < ⌈1 / fade⌉₊ := Nat.ceil_pos.mpr (by positivity)
    obtain ⟨n, hn⟩ : ∃ n, ⌈1 / fade⌉₊ = n + 1 :=
      ⟨⌈1 / fade⌉₊ - 1, (Nat.succ_pred_eq_of_pos hK).symm⟩
    have hlt : (n : ℚ) * fade < 1 := by
      have : (n : ℚ) < 1 / fade := Nat.lt_ceil.mp (by omega)
      exact (lt_div_iff hf).mp this
    have hge : 1 ≤ ((n : ℚ) + 1) * fade := by
      have h1 : (1 : ℚ) / fade ≤ ((n + 1 : ℕ) : ℚ) := by
        rw [← hn]; exact Nat.le_ceil _
      rw [div_le_iff hf] at h1
      push_cast at h1
      linarith
    rw [hn]
    show decayStep fade (decayIter fade n [⟨a, d, 1⟩]) = _
    rw [decayIter_singleton fade hf a d n hlt]
    simp only [decayStep, List.map_cons, List.map_nil, List.filter_cons, List.filter_nil,
      decide_eq_true_eq]
    rw [if_neg (by intro hcon; nlinarith)]
  · intro m b
    simp only [decayStep, List.mem_filter, List.mem_map, decide_eq_true_eq]
    constructor
    · rintro ⟨⟨r, hr, rfl⟩, hpos⟩
      exact ⟨hpos, r, hr, rfl⟩
    · rintro ⟨hpos, r, hr, rfl⟩
      exact ⟨⟨r, hr, rfl⟩, hpos⟩

/-- C4 witness: fade rate 1/3 — after 2 decay calls the blip's opacity is
exactly 1 − 2/3, and after ⌈3⌉ = 3 calls the blip is gone. -/
theorem blip_lifecycle_witness :
    decayIter (1 / 3) 2 [⟨(0 : ℚ), 10, 1⟩] = [⟨0, 10, 1 - (2 : ℕ) * ((1 : ℚ) / 3)⟩] ∧
    decayIter (1 / 3) ⌈(1 : ℚ) / (1 / 3)⌉₊ [⟨(0 : ℚ), 10, 1⟩] = [] := by
  have h := blip_lifecycle (1 / 3) (by norm_num) 0 10
  refine ⟨(h.1 2 ?_).1, h.2.1⟩
  rw [show ((1 : ℚ) / (1 / 3)) = 3 by norm_num]
  simp

/-- The sweep speed field is untouched by `RadarSweep.update` iterations. -/
theorem iter_sweep_speed {α : Type*} [LinearOrderedField α] [FloorRing α]
    (pi : α) (s : RadarSweep α) (n : ℕ) :
    (RadarSweep.iter pi s n).sweep_speed = s.sweep_speed := by
  induction n with
  | zero => rfl
  | succ k ih => simp [RadarSweep.iter, RadarSweep.update, ih]

/-- C7: starting from angle 0 with the source's sweep speed
`2π / (FULL_ROTATION_TIME_SECONDS · FPS) = 2π / (2 · 60)`, after `N` updates
the sweep angle equals `(N · sweep_speed) mod 2π`, and it always lies in
`[0, 2π)`. -/
theorem sweep_after_iterations (N : ℕ) :
    (RadarSweep.iter Real.pi ⟨0, 2 * Real.pi / (2 * 60)⟩ N).angle
        = pymod ((N : ℝ) * (2 * Real.pi / (2 * 60))) (2 * Real.pi) ∧
    0 ≤ (RadarSweep.iter Real.pi ⟨0, 2 * Real.pi / (2 * 60)⟩ N).angle ∧
    (RadarSweep.iter Real.pi ⟨0, 2 * Real.pi / (2 * 60)⟩ N).angle < 2 * Real.pi := by
  have h2pi : (0 : ℝ) < 2 * Real.pi := by positivity
  have hmain : ∀ n : ℕ, (RadarSweep.iter Real.pi ⟨0, 2 * Real.pi / (2 * 60)⟩ n).angle
      = pymod ((n : ℝ) * (2 * Real.pi / (2 * 60))) (2 * Real.pi) := by
    intro n
    induction n with
    | zero => simp [RadarSweep.iter, pymod]
    | succ k ih =>
      have hs := iter_sweep_speed Real.pi
        (⟨0, 2 * Real.pi / (2 * 60)⟩ : RadarSweep ℝ) k
      show (RadarSweep.update Real.pi _).angle = _
      rw [RadarSweep.update]
      dsimp only
      rw [ih, hs, pymod_add_pymod]
      congr 1
      push_cast
      ring
  refine ⟨hmain N, ?_, ?_⟩
  · rw [hmain N]; exact pymod_nonneg _ _ h2pi
  · rw [hmain N]; exact pymod_lt _ _ h2pi

/-- C2 counterexample: a bearing of 0.01 rad and a sweep angle of 2π − 0.01
rad are 0.02 rad apart along the circle, within the tolerance π/60, yet
`PrimaryRadarReturn.add_return` compares the plain difference
`|0.01 − (2π − 0.01)| = 2π − 0.02 ≥ π/60` and records no blip. -/
theorem primary_return_wraparound_cex :
    PrimaryRadarReturn.add_return (Real.pi / 60) ([] : List (RadarReturn ℝ)) (1 / 100) 50
        (2 * Real.pi - 1 / 100) = [] ∧
    spec_angular_distance Real.pi (1 / 100) (2 * Real.pi - 1 / 100) < Real.pi / 60 := by
  have hpi3 := Real.pi_gt_three
  have h2pi' : (0 : ℝ) < 2 * Real.pi := by positivity
  have habs : |(1 : ℝ) / 100 - (2 * Real.pi - 1 / 100)| = 2 * Real.pi - 1 / 50 := by
    rw [abs_of_nonpos (by linarith)]
    ring
  constructor
  · unfold PrimaryRadarReturn.add_return
    rw [if_neg]
    rw [habs]
    push_neg
    linarith
  · unfold spec_angular_distance
    rw [show (1 : ℝ) / 100 - (2 * Real.pi - 1 / 100) + Real.pi = 1 / 50 - Real.pi by ring]
    have hfloor : ⌊(1 / 50 - Real.pi) / (2 * Real.pi)⌋ = -1 := by
      rw [Int.floor_eq_iff]
      constructor
      · rw [le_div_iff h2pi']
        push_cast
        linarith
      · rw [div_lt_iff h2pi']
        push_cast
        linarith
    unfold pymod
    rw [hfloor]
    rw [show (1 : ℝ) / 50 - Real.pi - 2 * Real.pi * ((-1 : ℤ) : ℝ) - Real.pi = 1 / 50 by
      push_cast; ring]
    rw [abs_of_nonneg (by norm_num : (0 : ℝ) ≤ 1 / 50)]
    linarith

/-- C2 (amended): `PrimaryRadarReturn.add_return` appends a blip with opacity
1.0 exactly when the plain absolute difference `|angle − sweep|` is below the
tolerance; this agrees with the spec's shortest-path angular distance
whenever `|angle − sweep| ≤ π`, but bearings on opposite sides of the 0/2π
wraparound (difference above π) are compared by the plain difference, so a
wraparound pair within shortest-path tolerance records no blip. -/
theorem primary_return_plain_abs (m : List (RadarReturn ℝ)) (a d s tol : ℝ) :
    (PrimaryRadarReturn.add_return tol m a d s = m ++ [⟨a, d, 1⟩] ↔ |a - s| < tol) ∧
    (|a - s| ≤ Real.pi → spec_angular_distance Real.pi a s = |a - s|) := by
  constructor
  · constructor
    · intro h
      by_contra hno
      unfold PrimaryRadarReturn.add_return at h
      rw [if_neg hno] at h
      have hlen := congrArg List.length h
      simp at hlen
    · intro h
      unfold PrimaryRadarReturn.add_return RadarReturnManager.add_return
      rw [if_pos h]
  · intro hle
    unfold spec_angular_distance
    rcases lt_or_eq_of_le (abs_le.mp hle).2 with hlt | heq
    · have h1 : 0 ≤ a - s + Real.pi := by
        have := (abs_le.mp hle).1
        linarith
      have h2 : a - s + Real.pi < 2 * Real.pi := by linarith
      rw [pymod_of_mem _ _ h1 h2]
      rw [show a - s + Real.pi - Real.pi = a - s by ring]
    · unfold pymod
      rw [show a - s + Real.pi = 2 * Real.pi by rw [← heq]; ring]
      rw [div_self (by positivity : (2 * Real.pi) ≠ 0)]
      rw [Int.floor_one]
      rw [show 2 * Real.pi - 2 * Real.pi * ((1 : ℤ) : ℝ) - Real.pi = -Real.pi by
        push_cast; ring]
      rw [abs_neg, abs_of_nonneg Real.pi_pos.le, ← heq,
        abs_of_nonneg (heq ▸ Real.pi_pos.le)]

/-- C2 witness: bearing 0.1 rad, sweep 0, tolerance 1 — the plain difference
0.1 is below π, where the source's test and the spec's shortest-path distance
agree, and the blip-creation condition is exactly `|a − s| < tol`. -/
theorem primary_return_plain_abs_witness :
    (PrimaryRadarReturn.add_return 1 ([] : List (RadarReturn ℝ)) (1 / 10) 5 0
        = [] ++ [⟨1 / 10, 5, 1⟩] ↔ |(1 : ℝ) / 10 - 0| < 1) ∧
    spec_angular_distance Real.pi (1 / 10) 0 = |(1 : ℝ) / 10 - 0| := by
  have h := primary_return_plain_abs ([] : List (RadarReturn ℝ)) (1 / 10) 5 0 1
  refine ⟨h.1, h.2 ?_⟩
  rw [abs_of_nonneg (by norm_num : (0 : ℝ) ≤ 1 / 10 - 0)]
  linarith [Real.pi_gt_three]

end ATCSim
